import Mathlib

/-!
Verification of the grpc-profile repository (github.com/chanchal1987/grpc-profile)
against its natural-language specification.

The embedding follows the Go source: src/server.go (the Profile Service with
the Profile Store, the Collection Session and the Variable Registry),
src/client.go (both revisions of the client-side chunk reassembly loop) and
src/unnamed/part_001 (the earlier agent revision of the server).  Go maps are
modeled as association lists wrapped in Option, where none is a nil map:
reading a nil map yields the zero value, assigning into a nil map is a runtime
fault.  External collaborators (the pprof parse/merge library, the runtime
profiling capabilities, the grpc transport) are modeled at the interface
boundary the spec gives for them in its section 6.
-/

namespace GrpcProfile

/-- ValueType mirrors the (unit, kind) pair of the pprof profile format
(spec section 3, the periodType and sampleTypes entries). -/
structure ValueType where
  unit : String
  kind : String
  deriving DecidableEq, Repr

/-- Profile mirrors google/pprof profile.Profile at the boundary the spec
draws in section 3: the period type, the ordered sample dimensions and an
opaque sample payload. -/
structure Profile where
  periodType : ValueType
  sampleTypes : List ValueType
  samples : List Nat
  deriving DecidableEq, Repr

inductive MergeErr
  | incompatibleProfile
  deriving DecidableEq, Repr

/-- Modelled from the spec (sections 3, 4.1 and 6): the external collaborator
profile.Merge of github.com/google/pprof, which the repository calls but does
not contain.  Two profiles merge iff their periodType values are equal and
their sampleTypes sequences are equal elementwise; the merged profile unions
the sample payloads; otherwise Merge reports an incompatible-profile error. -/
def pprofMerge (a b : Profile) : Except MergeErr Profile :=
  if a.periodType = b.periodType ∧ a.sampleTypes = b.sampleTypes then
    .ok { periodType := a.periodType, sampleTypes := a.sampleTypes,
          samples := a.samples ++ b.samples }
  else
    .error .incompatibleProfile

/-- Association-list lookup, the read of a Go map entry. -/
def assocFind {α : Type} : List (Int × α) → Int → Option α
  | [], _ => none
  | (k, v) :: rest, t => if k = t then some v else assocFind rest t

/-- Association-list update, the write of a Go map entry. -/
def assocSet {α : Type} : List (Int × α) → Int → α → List (Int × α)
  | [], k, v => [(k, v)]
  | (k1, v1) :: rest, k, v =>
      if k1 = k then (k, v) :: rest else (k1, v1) :: assocSet rest k v

/-- Read of a possibly-nil Go map (none is nil): a nil map reads as empty. -/
def mapFind {α : Type} : Option (List (Int × α)) → Int → Option α
  | none, _ => none
  | some l, t => assocFind l t

/-- Grpc status errors and plain Go errors the server methods return. -/
inductive SrvErr
  | statusNotFound (msg : String)
  | failedPrecondition (msg : String)
  | goErr (msg : String)
  | mergeErr (e : MergeErr)
  deriving DecidableEq, Repr

/-- Shared keep-path store update of src/server.go: Server.LookupProfile lines
236-245 and Server.NonLookupProfile lines 336-345 run this same logic on
server.lookupProfile resp. server.nonLookupProfile.  A nil store is replaced by
a fresh map first; if the type has a cached entry the incoming profile is
merged with it, and a merge failure returns the error with the store mutation
never reached (the cached entries stay as they were); otherwise the incoming
(or merged) profile is written under the type. -/
def profilePut (store : Option (List (Int × Profile))) (t : Int) (p : Profile) :
    Option (List (Int × Profile)) × Option MergeErr :=
  let st := match store with
    | none => ([] : List (Int × Profile))
    | some l => l
  match assocFind st t with
  | some cached =>
      match pprofMerge cached p with
      | .error e => (some st, some e)
      | .ok merged => (some (assocSet st t merged), none)
  | none => (some (assocSet st t p), none)

/-- Server.DownloadLookupProfile, src/server.go lines 256-271 (the body of
Server.DownloadNonLookupProfile, lines 369-384, is identical over the
nonLookupProfile map).  The serialize argument is the external prof.Write
serialization; the result chunks are the one-byte FileChunk messages of
grpcStreamWriter.  The local flag ok is declared false, the first if only ever
re-assigns false, and the comma-ok map fetch is guarded by that flag. -/
def DownloadLookupProfile (serialize : Profile → List Nat)
    (store : Option (List (Int × Profile))) (t : Int) :
    Except SrvErr (List (List Nat)) :=
  let ok0 : Bool := false
  let ok1 : Bool := if (mapFind store t).isNone then false else ok0
  let pr : Option Profile × Bool :=
    if ok1 then (mapFind store t, (mapFind store t).isSome) else (none, ok1)
  if pr.2 = false then
    .error (.statusNotFound "no profile data saved")
  else
    match pr.1 with
    | some p => .ok ((serialize p).map (fun b => [b]))
    | none => .ok []

/-! Chunked transport.  FileChunk content is a byte list; bytes are Nat. -/

/-- Loop body of grpcStreamWriter.Write, src/server.go lines 152-161: one
Send per byte, each carrying a single-byte FileChunk; the first Send failure
stops the loop.  sendErr models the grpc Send capability: sendErr i is the
error of the Send for chunk index i, none meaning delivered.  Result:
(n, chunks delivered in order, error). -/
def writeLoop (sendErr : Nat → Option String) :
    Nat → List Nat → Nat × List (List Nat) × Option String
  | _, [] => (0, [], none)
  | i, b :: rest =>
      match sendErr i with
      | some e => (0, [], some e)
      | none =>
          let r := writeLoop sendErr (i + 1) rest
          (r.1 + 1, [b] :: r.2.1, r.2.2)

/-- grpcStreamWriter.Write, src/server.go lines 152-161 (textually identical
in src/unnamed/part_001 lines 123-132). -/
def grpcStreamWriterWrite (sendErr : Nat → Option String) (bs : List Nat) :
    Nat × List (List Nat) × Option String :=
  writeLoop sendErr 0 bs

/-- Result of one Recv call past the delivered chunks: io.EOF is the normal
end-of-stream sentinel, other carries any other stream error. -/
inductive RecvErr
  | ioEOF
  | other (e : String)
  deriving DecidableEq, Repr

/-- receiveFileChunk, first revision: src/client.go lines 17-38.  The stream
is the list of chunks Recv delivers followed by the terminal Recv error.  On
io.EOF the code sets err = nil and breaks; on any other Recv error it returns
that error; each delivered chunk is appended to the destination sink in
arrival order (the sink, an io.Writer supplied by the caller, is modeled as
the accumulated byte list).  Result: (bytes written to the sink, returned
error). -/
def receiveFileChunkV1 : List (List Nat) → RecvErr → List Nat × Option RecvErr
  | [], .ioEOF => ([], none)
  | [], .other e => ([], some (.other e))
  | c :: rest, t =>
      let r := receiveFileChunkV1 rest t
      (c ++ r.1, r.2)

/-- receiveFileChunk, second revision: src/client.go lines 505-525.  Identical
loop except that on io.EOF it breaks without clearing err, so the io.EOF
value itself is returned. -/
def receiveFileChunkV2 : List (List Nat) → RecvErr → List Nat × Option RecvErr
  | [], .ioEOF => ([], some .ioEOF)
  | [], .other e => ([], some (.other e))
  | c :: rest, t =>
      let r := receiveFileChunkV2 rest t
      (c ++ r.1, r.2)

/-! Collection Session and the duration-bound server operations. -/

/-- The session-related server state: src/server.go field profileRunning
(line 43), the only field the collection code writes. -/
structure SessionState where
  profileRunning : Bool
  deriving DecidableEq, Repr

/-- Result of Server.runNonLookup: the state afterwards, whether the
background task (the timer-or-cancel goroutine that fires stopFunc once) was
spawned, and the returned error. -/
structure RunResult where
  state : SessionState
  sessionSpawned : Bool
  err : Option String
  deriving Repr

/-- Server.runNonLookup, src/server.go lines 273-295.  The method first sets
server.profileRunning = true, then invokes the start capability (startFunc
writing into the sink); if start fails it returns that error at once, with no
timer context and no goroutine created and profileRunning left as just set.
On success it arms the timeout context, spawns the single background task
that waits for timeout-or-cancellation and invokes stopFunc, and returns nil
(after blocking when waitForCompletion).  The start argument is the result of
the external start capability. -/
def runNonLookup (start : Except String Unit) (s : SessionState) : RunResult :=
  let s1 : SessionState := { s with profileRunning := true }
  match start with
  | .error e => { state := s1, sessionSpawned := false, err := some e }
  | .ok _ => { state := s1, sessionSpawned := true, err := none }

/-- The server state the duration-bound operations touch: the session state
and the nonLookupProfile cache map (nil when none). -/
structure ServerSnapshot where
  session : SessionState
  nonLookupProfile : Option (List (Int × Profile))
  deriving DecidableEq, Repr

/-- Outcome of Server.NonLookupProfile: the server state afterwards, whether
the start capability was invoked at all, the FileChunk stream sent, and the
error returned to the caller. -/
structure NonLookupOutcome where
  server : ServerSnapshot
  startInvoked : Bool
  chunks : List (List Nat)
  err : Option SrvErr
  deriving Repr

/-- Server.NonLookupProfile, src/server.go lines 298-353.  Profile types are
the proto.NonLookupProfile enum values: CPU = 0, Trace = 1; the switch on the
type is the first statement, so any other value returns the
status.Error(codes.NotFound, "unknown profile type") before any duration
parse, start or stop.  dur is the ptypes.Duration parse result of the request
duration; start is the result of the external start capability (invoked
inside runNonLookup); collected is the byte stream the collection produced
into its sink; parse is the external profile.Parse collaborator.  In the keep
branch the collected bytes are first streamed to the caller (the grpc Send is
modeled as delivering; see grpcStreamWriterWrite for the failure path), then
parsed and put into the store under the shared profilePut logic, whose merge
failure is returned to the caller.  In the non-keep branch the collection
writes straight to the stream. -/
def NonLookupProfileOp (t : Int) (dur : Except String Nat)
    (start : Except String Unit) (collected : List Nat)
    (parse : List Nat → Except String Profile)
    (keep : Bool) (s : ServerSnapshot) : NonLookupOutcome :=
  if t = 0 ∨ t = 1 then
    match dur with
    | .error e =>
        { server := s, startInvoked := false, chunks := [], err := some (.goErr e) }
    | .ok _ =>
        let r := runNonLookup start s.session
        match r.err with
        | some e =>
            { server := { s with session := r.state }, startInvoked := true,
              chunks := [], err := some (.goErr e) }
        | none =>
            if keep then
              let chunks := collected.map (fun b => [b])
              match parse collected with
              | .error e =>
                  { server := { s with session := r.state }, startInvoked := true,
                    chunks := chunks, err := some (.goErr e) }
              | .ok p =>
                  let pr := profilePut s.nonLookupProfile t p
                  match pr.2 with
                  | some e =>
                      { server := { s with session := r.state, nonLookupProfile := pr.1 },
                        startInvoked := true, chunks := chunks,
                        err := some (.mergeErr e) }
                  | none =>
                      { server := { s with session := r.state, nonLookupProfile := pr.1 },
                        startInvoked := true, chunks := chunks, err := none }
            else
              { server := { s with session := r.state }, startInvoked := true,
                chunks := collected.map (fun b => [b]), err := none }
  else
    { server := s, startInvoked := false, chunks := [],
      err := some (.statusNotFound "unknown profile type") }

/-- Outcome of Server.StopNonLookupProfile: whether the external stop
capability was invoked, and the returned error. -/
structure StopOutcome where
  stopInvoked : Bool
  err : Option SrvErr
  deriving DecidableEq, Repr

/-- Server.StopNonLookupProfile, src/server.go lines 356-366.  CPU = 0 calls
pprof.StopCPUProfile(), Trace = 1 calls trace.Stop(); both runtime stop
capabilities accept being called while nothing of that kind is running, so
the method ignores the running state entirely (the `running` argument records
it and is unused) and returns an empty response with a nil error.  Any other
type value returns status.Error(codes.NotFound, "unknown profile type")
without invoking a stop. -/
def StopNonLookupProfile (t : Int) (_running : Bool) : StopOutcome :=
  if t = 0 then { stopInvoked := true, err := none }
  else if t = 1 then { stopInvoked := true, err := none }
  else { stopInvoked := false, err := some (.statusNotFound "unknown profile type") }

/-- Outcome of Server.LookupProfile: the lookupProfile store afterwards, the
FileChunk stream sent to the caller and the returned error. -/
structure LookupOutcome where
  lookupProfile : Option (List (Int × Profile))
  chunks : List (List Nat)
  err : Option SrvErr
  deriving DecidableEq, Repr

/-- Server.LookupProfile, src/server.go lines 214-253.  lookupResult is the
external snapshot capability at its boundary: pprof.Lookup followed by
prof.WriteTo, none when pprof.Lookup returns nil (the code then returns at
once with a nil error, an empty stream and no store access).  With keep set,
the snapshot bytes are buffered, streamed to the caller as one-byte chunks
(the Send is modeled as delivering; see grpcStreamWriterWrite for the failure
path), parsed by the external profile.Parse, and put into the lookupProfile
store by the shared profilePut logic whose merge failure is returned to the
caller; without keep the bytes are streamed directly and the store is never
touched. -/
def LookupProfileOp (lookupResult : Option (List Nat))
    (parse : List Nat → Except String Profile) (t : Int) (keep : Bool)
    (store : Option (List (Int × Profile))) : LookupOutcome :=
  match lookupResult with
  | none => { lookupProfile := store, chunks := [], err := none }
  | some bs =>
      if keep then
        let chunks := bs.map (fun b => [b])
        match parse bs with
        | .error e => { lookupProfile := store, chunks := chunks, err := some (.goErr e) }
        | .ok p =>
            let pr := profilePut store t p
            match pr.2 with
            | some e =>
                { lookupProfile := pr.1, chunks := chunks, err := some (.mergeErr e) }
            | none => { lookupProfile := pr.1, chunks := chunks, err := none }
      else
        { lookupProfile := store, chunks := bs.map (fun b => [b]), err := none }

/-! Variable Registry.  The proto.ProfileVariable enum of src/unnamed/part_006
(the protocol revision src/server.go implements): MemProfileRate = 0,
MutexProfileFraction = 1, BlockProfileRate = 2.  Go maps are reference
values, so the two map fields of Server may alias one underlying map; the
embedding therefore keeps the allocated maps in a heap and the fields hold
references (indices) into it, with none for a nil map field. -/

/-- A Go runtime fault (panic). -/
inductive GoFault
  | nilMapWrite
  deriving DecidableEq, Repr

/-- The variable-registry fields of Server, src/server.go lines 40-42:
initVariable and variable (here varRef, since that word is reserved in Lean)
are map-typed fields holding references into the heap of allocated maps, nil
when none; initializedVars is the guard flag. -/
structure VarState where
  heap : List (List (Int × Int))
  initVariable : Option Nat
  varRef : Option Nat
  initializedVars : Bool
  deriving DecidableEq, Repr

/-- Write through a map field: assigning into a nil map is a Go runtime
fault; otherwise the referenced map in the heap is updated. -/
def VarState.mapWrite (s : VarState) (r : Option Nat) (k v : Int) :
    Except GoFault VarState :=
  match r with
  | none => .error .nilMapWrite
  | some i => .ok { s with heap := s.heap.set i (assocSet (s.heap.getD i []) k v) }

/-- Read through a map field: a nil map or a missing key reads as the zero
value 0. -/
def VarState.mapRead (s : VarState) (r : Option Nat) (k : Int) : Int :=
  match r with
  | none => 0
  | some i => (assocFind (s.heap.getD i []) k).getD 0

/-- Server.initVariables, src/server.go lines 107-126.  When already
initialized it returns the errors.New message.  Otherwise: when the
initVariable field is nil the code allocates a fresh map but assigns it to
the variable field (the make on line 113 targets server.variable); it then
assigns the captured process defaults into server.initVariable entry by
entry (memProfileRate is runtime.MemProfileRate, muFrac is the mutex
fraction read back through runtime.SetMutexProfileFraction, and the block
rate default is the literal 0), aliases server.variable to the very same map
object with the plain reference assignment on line 123, and sets the guard
flag.  The result pairs the state with the returned Go error. -/
def Server.initVariables (memProfileRate muFrac : Int) (s : VarState) :
    Except GoFault (VarState × Option String) :=
  if s.initializedVars then
    .ok (s, some "variables are already initialized")
  else
    let s0 := match s.initVariable with
      | none => { s with heap := s.heap ++ [[]], varRef := some s.heap.length }
      | some _ => s
    match s0.mapWrite s0.initVariable 0 memProfileRate with
    | .error f => .error f
    | .ok s1 =>
        match s1.mapWrite s1.initVariable 1 muFrac with
        | .error f => .error f
        | .ok s2 =>
            match s2.mapWrite s2.initVariable 2 0 with
            | .error f => .error f
            | .ok s3 =>
                .ok ({ s3 with varRef := s3.initVariable, initializedVars := true },
                     none)

/-- The freshly constructed Server of NewServer, src/server.go line 51:
server = new Server with every map field nil and the guard flag false. -/
def freshServerVars : VarState :=
  { heap := [], initVariable := none, varRef := none, initializedVars := false }

/-- NewServer, src/server.go lines 50-58, restricted to its variable
registry effect: SetOptions with no options is a no-op, after which
initVariables runs on the fresh server. -/
def NewServer (memProfileRate muFrac : Int) :
    Except GoFault (VarState × Option String) :=
  Server.initVariables memProfileRate muFrac freshServerVars

/-- Server.Set, src/server.go lines 177-192.  Before initialization it
returns status.Error(codes.FailedPrecondition, ...).  Otherwise it writes the
rate into the variable map (a write through the varRef reference) and then
applies server.variable[v] to the matching runtime parameter, an external
capability call that does not touch the registry. -/
def Server.Set (s : VarState) (v rate : Int) :
    Except GoFault (VarState × Option SrvErr) :=
  if s.initializedVars then
    match s.mapWrite s.varRef v rate with
    | .error f => .error f
    | .ok s1 => .ok (s1, none)
  else
    .ok (s, some (.failedPrecondition "variables are not initialized yet"))

/-- Server.Reset, src/server.go lines 195-211.  Before initialization it
returns status.Error(codes.FailedPrecondition, ...).  Otherwise it reads
rate := server.initVariable[v], writes it back into the variable map and
applies it to the matching runtime parameter.  The Int of the result is that
rate, the value the reset applied (meaningful when the error is none). -/
def Server.Reset (s : VarState) (v : Int) :
    Except GoFault (VarState × Int × Option SrvErr) :=
  if s.initializedVars then
    let rate := s.mapRead s.initVariable v
    match s.mapWrite s.varRef v rate with
    | .error f => .error f
    | .ok s1 => .ok (s1, rate, none)
  else
    .ok (s, 0, some (.failedPrecondition "variables are not initialized yet"))

/-! Concrete fixtures for the counterexamples and witnesses. -/

def vtSpace : ValueType := { unit := "bytes", kind := "space" }

def vtObjects : ValueType := { unit := "count", kind := "objects" }

/-- A cached profile with sample dimensions [(count, objects)]. -/
def profA : Profile :=
  { periodType := vtSpace, sampleTypes := [vtObjects], samples := [1, 2] }

/-- An incoming profile of the same period type whose sampleTypes differ. -/
def profB : Profile :=
  { periodType := vtSpace, sampleTypes := [vtSpace], samples := [3] }

/-- A server before any collection: nothing running, nonLookupProfile nil. -/
def c6Server : ServerSnapshot :=
  { session := { profileRunning := false }, nonLookupProfile := none }

/-! Theorems for the claims. -/

/-- C1: the claim says downloadCached(type) streams the cached entry whenever
one is cached and fails NotFound exactly when none is.  The code fails the
first half: the local ok flag of Server.DownloadLookupProfile (and of the
identical Server.DownloadNonLookupProfile) starts false and is never set
true, so for every store contents, cached entry or not, the method returns
the NotFound status and never streams anything.  The NotFound-before-any-put
half of the claim holds, as the special case of an empty store. -/
theorem downloadLookupProfile_always_notFound (serialize : Profile → List Nat)
    (store : Option (List (Int × Profile))) (t : Int) :
    DownloadLookupProfile serialize store t =
      .error (.statusNotFound "no profile data saved") := by
  unfold DownloadLookupProfile
  simp

/-- C2 counterexample: with profA cached for type 0 and the incompatible
profB incoming, the claim asserts the put leaves the store holding exactly
profB under type 0 with no error surfaced; the code instead returns the
merge error with the store untouched, so that asserted outcome is false. -/
theorem put_incompatible_counterexample :
    profilePut (some [(0, profA)]) 0 profB ≠ (some [(0, profB)], none) := by
  decide

/-- C2 amended: when the cached and incoming profiles of a type are
incompatible, the keep-path put does not clear the store and does not insert
the incoming profile; it leaves every cached entry exactly as it was and the
IncompatibleProfile merge error is surfaced to the caller of the collection
operation (shown on the LookupProfile keep path; the NonLookupProfile keep
path runs the same profilePut). -/
theorem put_incompatible_keeps_store (st : List (Int × Profile)) (t : Int)
    (p1 p2 : Profile) (bs : List Nat) (parse : List Nat → Except String Profile)
    (hfind : assocFind st t = some p1)
    (hparse : parse bs = .ok p2)
    (hinc : ¬(p1.periodType = p2.periodType ∧ p1.sampleTypes = p2.sampleTypes)) :
    profilePut (some st) t p2 = (some st, some .incompatibleProfile) ∧
    LookupProfileOp (some bs) parse t true (some st) =
      { lookupProfile := some st, chunks := bs.map (fun b => [b]),
        err := some (.mergeErr .incompatibleProfile) } := by
  have hput : profilePut (some st) t p2 = (some st, some .incompatibleProfile) := by
    unfold profilePut pprofMerge
    simp [hfind, hinc]
  refine ⟨hput, ?_⟩
  unfold LookupProfileOp
  simp [hparse, hput]

theorem put_incompatible_keeps_store_witness :
    profilePut (some [(0, profA)]) 0 profB =
      (some [(0, profA)], some .incompatibleProfile) ∧
    LookupProfileOp (some [7]) (fun _ => .ok profB) 0 true (some [(0, profA)]) =
      { lookupProfile := some [(0, profA)], chunks := [[7]],
        err := some (.mergeErr .incompatibleProfile) } :=
  put_incompatible_keeps_store [(0, profA)] 0 profA profB [7] (fun _ => .ok profB)
    (by decide) rfl (by decide)

/-- The state of a Server whose initVariable map object already exists: the
only entry states on which initVariables completes (on a fresh Server it
faults, see the C10 theorem), reachable in Go by constructing the Server
struct inside the package with the map pre-allocated. -/
def preInitVars : VarState :=
  { heap := [[]], initVariable := some 0, varRef := none, initializedVars := false }

/-- The C3 scenario of the spec: initialize the registry with captured
MemProfileRate default 524288 (and mutex fraction 7), then Set(MemProfileRate,
1), then Reset(MemProfileRate).  The result is the rate the Reset applied. -/
def resetAfterSetRate : Except GoFault Int :=
  match Server.initVariables 524288 7 preInitVars with
  | .error f => .error f
  | .ok (s, _) =>
      match Server.Set s 0 1 with
      | .error f => .error f
      | .ok (s1, _) =>
          match Server.Reset s1 0 with
          | .error f => .error f
          | .ok (_, rate, _) => .ok rate

/-- C3: the claim says the default captured at initialization is never
overwritten, so Reset restores it and never a value written by an
intervening Set.  The code aliases server.variable and server.initVariable
to the same map object (line 123 of src/server.go), so the Set writes
through into the captured defaults: after Set(MemProfileRate, 1) the Reset
restores 1, not the captured 524288. -/
theorem reset_restores_overwritten_default :
    resetAfterSetRate = .ok 1 ∧ (1 : Int) ≠ 524288 :=
  ⟨rfl, by decide⟩

/-- C4: round-trip identity of the chunked transport.  Writing any byte
sequence through grpcStreamWriter.Write over an intact stream (every Send
delivered) emits one single-byte FileChunk per byte in order, and the
receiver loop of src/client.go lines 17-38 reassembles exactly the original
bytes, in order, into the destination sink, returning success. -/
theorem chunked_transport_round_trip (bs : List Nat) :
    receiveFileChunkV1 (grpcStreamWriterWrite (fun _ => none) bs).2.1 .ioEOF =
      (bs, none) := by
  have h : ∀ bs2 : List Nat, ∀ i,
      receiveFileChunkV1 (writeLoop (fun _ => none) i bs2).2.1 .ioEOF = (bs2, none) := by
    intro bs2
    induction bs2 with
    | nil => intro i; rfl
    | cons b rest ih =>
        intro i
        simp [writeLoop, receiveFileChunkV1, ih (i + 1)]
  exact h bs 0

/-- C5: the claim says both protocol revisions of the client reassembly loop
return a nil error on normal end-of-stream.  The first revision does, for
any number of delivered chunks, with the delivered bytes all written; the
second revision (src/client.go lines 505-525) breaks out of the loop without
clearing err, returning the io.EOF sentinel as a non-nil error even on a
stream that ends normally after zero chunks. -/
theorem receiveFileChunk_eof_revisions :
    (∀ chunks, receiveFileChunkV1 chunks .ioEOF = (chunks.flatten, none)) ∧
    receiveFileChunkV2 [] .ioEOF = ([], some .ioEOF) := by
  constructor
  · intro chunks
    induction chunks with
    | nil => rfl
    | cons c rest ih => simp [receiveFileChunkV1, ih]
  · rfl

/-- C6 counterexample: the claim asserts that after a failed start the
server state equals the state before the call.  With the server idle
(profileRunning false) and the CPU start capability failing, the call leaves
profileRunning true (runNonLookup sets it before invoking start and the
failure path never resets it), so the state is not the one before. -/
theorem start_failure_state_counterexample :
    (NonLookupProfileOp 0 (.ok 100) (.error "start failed") []
        (fun _ => .error "unused") true c6Server).server ≠ c6Server := by
  decide

/-- C6 amended: when the start capability fails, collectProfile returns that
error unchanged, nothing is streamed, and no session is spawned (no timer or
stop task exists, so nothing will fire later) -- but the profileRunning
flag, set before the start attempt, is left true rather than restored. -/
theorem start_failure_propagates_error (t : Int) (ht : t = 0 ∨ t = 1) (d : Nat)
    (e : String) (collected : List Nat) (parse : List Nat → Except String Profile)
    (keep : Bool) (s : ServerSnapshot) :
    NonLookupProfileOp t (.ok d) (.error e) collected parse keep s =
      { server := { s with session := { profileRunning := true } },
        startInvoked := true, chunks := [], err := some (.goErr e) } := by
  unfold NonLookupProfileOp runNonLookup
  simp [ht]

theorem start_failure_propagates_error_witness :
    ((0 : Int) = 0 ∨ (0 : Int) = 1) ∧
    NonLookupProfileOp 0 (.ok 100) (.error "boom") []
        (fun _ => .error "unused") false c6Server =
      { server := { c6Server with session := { profileRunning := true } },
        startInvoked := true, chunks := [], err := some (.goErr "boom") } :=
  ⟨Or.inl rfl,
   start_failure_propagates_error 0 (Or.inl rfl) 100 "boom" []
     (fun _ => .error "unused") false c6Server⟩

/-- C7: stopCollection is idempotent for the duration types CPU (0) and
Trace (1): whatever the running state -- running, already stopped or never
started -- the method invokes the stop capability and returns success. -/
theorem stopNonLookupProfile_idempotent (t : Int) (ht : t = 0 ∨ t = 1)
    (running : Bool) :
    (StopNonLookupProfile t running).err = none ∧
    (StopNonLookupProfile t running).stopInvoked = true := by
  rcases ht with h | h <;> subst h <;> exact ⟨rfl, rfl⟩

theorem stopNonLookupProfile_idempotent_witness :
    ((0 : Int) = 0 ∨ (0 : Int) = 1) ∧
    ((StopNonLookupProfile 0 false).err = none ∧
     (StopNonLookupProfile 0 false).stopInvoked = true) :=
  ⟨Or.inl rfl, stopNonLookupProfile_idempotent 0 (Or.inl rfl) false⟩

/-- C8: for any type value outside the duration enumeration, both
collectProfile and stopCollection return the unknown-profile-type status
before doing anything: the start capability is never invoked, nothing is
streamed, the server state is untouched and no stop is issued. -/
theorem unknown_profile_type_rejected (t : Int) (h0 : t ≠ 0) (h1 : t ≠ 1)
    (dur : Except String Nat) (start : Except String Unit) (collected : List Nat)
    (parse : List Nat → Except String Profile) (keep : Bool) (s : ServerSnapshot)
    (running : Bool) :
    NonLookupProfileOp t dur start collected parse keep s =
      { server := s, startInvoked := false, chunks := [],
        err := some (.statusNotFound "unknown profile type") } ∧
    StopNonLookupProfile t running =
      { stopInvoked := false, err := some (.statusNotFound "unknown profile type") } := by
  constructor
  · unfold NonLookupProfileOp
    simp [h0, h1]
  · unfold StopNonLookupProfile
    simp [h0, h1]

theorem unknown_profile_type_witness :
    ((5 : Int) ≠ 0 ∧ (5 : Int) ≠ 1) ∧
    (NonLookupProfileOp 5 (.ok 100) (.ok ()) [] (fun _ => .error "unused")
        true c6Server =
      { server := c6Server, startInvoked := false, chunks := [],
        err := some (.statusNotFound "unknown profile type") } ∧
     StopNonLookupProfile 5 false =
      { stopInvoked := false, err := some (.statusNotFound "unknown profile type") }) :=
  ⟨⟨by decide, by decide⟩,
   unknown_profile_type_rejected 5 (by decide) (by decide) (.ok 100) (.ok ()) []
     (fun _ => .error "unused") true c6Server false⟩

/-- C9: when the external snapshot capability has no data for the type
(pprof.Lookup returns nil), LookupProfile returns at once: empty stream, nil
error, and the Profile Store exactly as it was, for either keep value. -/
theorem lookupProfile_empty_snapshot (parse : List Nat → Except String Profile)
    (t : Int) (keep : Bool) (store : Option (List (Int × Profile))) :
    LookupProfileOp none parse t keep store =
      { lookupProfile := store, chunks := [], err := none } := rfl

/-- C10: the claim says the initialization NewServer runs performs no
assignment into a nil map and completes.  On the fresh Server every map
field is nil; initVariables allocates a map but assigns it to the variable
field (line 113), then assigns the captured default into the still-nil
initVariable map, a nil-map assignment: a Go runtime fault, for every value
of the captured runtime defaults. -/
theorem newServer_nil_map_fault (memProfileRate muFrac : Int) :
    NewServer memProfileRate muFrac = .error .nilMapWrite := rfl

end GrpcProfile
